import Mathlib

/-!
Verification development for the regulaize risk-analysis frontend.

The definitions below are a shallow embedding of the repository frontend:
the TypeScript domain types (Transaction, Entity, enrichment records,
FileMetadata, TransactionStatistics), the axios API layer (response
interceptor, searchEntities URL construction), the FileUpload polling loop,
the EntitySearch debounce gate, and the RiskDashboard percentage
computations.  JavaScript numbers are modelled as rationals, counts as
naturals, Date values as naturals, and dynamically typed values reaching
the response interceptor as a small JSValue type.
-/

namespace Regulaize

/-- Status union of the Transaction interface in the frontend types module. -/
inductive TransactionStatus
  | PENDING
  | PROCESSING
  | COMPLETED
  | FAILED
deriving DecidableEq

def TransactionStatus.toString : TransactionStatus → String
  | .PENDING => "PENDING"
  | .PROCESSING => "PROCESSING"
  | .COMPLETED => "COMPLETED"
  | .FAILED => "FAILED"

/-- All inhabitants of the Transaction status union, in declaration order. -/
def allTransactionStatuses : List TransactionStatus :=
  [.PENDING, .PROCESSING, .COMPLETED, .FAILED]

/-- The processing states enumerated by the specification for a
TransactionRecord. -/
def specTransactionStates : List String :=
  ["PENDING", "EXTRACTING", "ENRICHING", "SCORING", "PERSISTING", "COMPLETED", "FAILED"]

/-- Entity type union from the frontend types module. -/
inductive EntityType
  | INDIVIDUAL
  | ORGANIZATION
  | LOCATION
deriving DecidableEq

/-- Entity role union from the frontend types module: the role field holds
one of these three values. -/
inductive Role
  | PAYER
  | RECEIVER
  | INTERMEDIARY
deriving DecidableEq

structure SECData where
  cik : String
  filings : List String
  status : String
deriving DecidableEq

/-- One element of the OFACData listEntries array.  The array is typed as
any[] in the source; the sanctions-warning rendering reads the fields
list_name and match_type of each element, so an element is modelled as a
record in which either field may be absent. -/
structure OFACEntry where
  list_name : Option String
  match_type : Option String
deriving DecidableEq

structure OFACData where
  sanctioned : Bool
  listEntries : List OFACEntry
  lastChecked : Nat
deriving DecidableEq

structure MediaData where
  sentiment : ℚ
  articles : List String
  lastUpdated : Nat
deriving DecidableEq

structure RegulatoryData where
  status : String
  violations : List String
  lastChecked : Nat
deriving DecidableEq

structure LegalData where
  cases : List String
  status : String
  lastUpdated : Nat
deriving DecidableEq

/-- The enrichmentData bundle of the Entity interface: one optional record
per provider field. -/
structure EnrichmentData where
  sec : Option SECData
  ofac : Option OFACData
  media : Option MediaData
  regulatory : Option RegulatoryData
  legal : Option LegalData
deriving DecidableEq

/-- The Entity interface of the frontend types module. -/
structure Entity where
  id : String
  name : String
  type : EntityType
  role : Role
  enrichmentData : EnrichmentData
  riskScore : ℚ
deriving DecidableEq

/-- The Transaction interface of the frontend types module. -/
structure Transaction where
  id : String
  fileId : String
  rawData : String
  entities : List Entity
  riskScore : ℚ
  status : TransactionStatus
  createdAt : Nat
  updatedAt : Nat

/-- Format union of the FileMetadata interface. -/
inductive FileFormat
  | JSON
  | CSV
  | EXCEL
  | XML
  | PDF
  | TXT
deriving DecidableEq

def FileFormat.toString : FileFormat → String
  | .JSON => "JSON"
  | .CSV => "CSV"
  | .EXCEL => "EXCEL"
  | .XML => "XML"
  | .PDF => "PDF"
  | .TXT => "TXT"

def allFileFormats : List FileFormat :=
  [.JSON, .CSV, .EXCEL, .XML, .PDF, .TXT]

/-- Status union of the FileMetadata interface. -/
inductive FileStatus
  | PENDING
  | PROCESSING
  | COMPLETED
  | FAILED
deriving DecidableEq

/-- The FileMetadata interface of the frontend types module. -/
structure FileMetadata where
  id : String
  filename : String
  size : Nat
  format : FileFormat
  uploadedBy : String
  status : FileStatus
  createdAt : Nat
  updatedAt : Nat

/-- The TransactionStatistics interface of the frontend types module.
The four count fields are counts, modelled as naturals; the remaining
fields are general numbers, modelled as rationals. -/
structure TransactionStatistics where
  totalCount : Nat
  highRiskCount : Nat
  mediumRiskCount : Nat
  lowRiskCount : Nat
  averageRiskScore : ℚ
  totalAmount : ℚ
  complianceRate : ℚ
deriving DecidableEq

/-- Field names of the Entity interface, in declaration order. -/
def entityFieldNames : List String :=
  ["id", "name", "type", "role", "enrichmentData", "riskScore"]

/-- Provider field names of the enrichmentData bundle, in declaration
order. -/
def enrichmentProviderFields : List String :=
  ["sec", "ofac", "media", "regulatory", "legal"]

/-- The four providers named by the specification (sanctions, regulatory,
media, legal), written as the corresponding bundle field names. -/
def specProviderFields : List String :=
  ["ofac", "regulatory", "media", "legal"]

/-- The provider records of a bundle, as (field name, record present)
pairs, in declaration order. -/
def bundleProviderRecords (b : EnrichmentData) : List (String × Bool) :=
  [("sec", b.sec.isSome), ("ofac", b.ofac.isSome), ("media", b.media.isSome),
   ("regulatory", b.regulatory.isSome), ("legal", b.legal.isSome)]

/-- The roles carried by one Entity value: the role field holds exactly
one Role, so the collection of roles the record can express is the
singleton of that field. -/
def entityRoles (e : Entity) : List Role := [e.role]

/-- Risk-band colouring used by the EntitySearch component: thresholds 30
and 70 on the raw riskScore value. -/
def entitySearchGetRiskColor (score : ℚ) : String :=
  if score < 30 then "bg-green-100 text-green-800"
  else if score < 70 then "bg-wf-gold bg-opacity-20 text-wf-black"
  else "bg-wf-red bg-opacity-20 text-wf-red"

/-- Risk-band colouring used by the RiskDashboard component: thresholds
0.3 and 0.7 on the raw riskScore value. -/
def dashboardGetRiskColor (score : ℚ) : String :=
  if score < 3/10 then "bg-green-100 text-green-800"
  else if score < 7/10 then "bg-wf-gold bg-opacity-20 text-wf-black"
  else "bg-wf-red bg-opacity-20 text-wf-red"

/-- A dynamically typed JavaScript value of the shapes relevant to the
response interceptor: undefined, a string, or a number. -/
inductive JSValue
  | undef
  | str (s : String)
  | num (n : Int)
deriving DecidableEq

/-- JavaScript truthiness for the modelled value shapes. -/
def jsTruthy : JSValue → Bool
  | .undef => false
  | .str s => !(s == "")
  | .num n => !(n == 0)

def listStartsWith : List Char → List Char → Bool
  | [], _ => true
  | _ :: _, [] => false
  | a :: as, b :: bs => a == b && listStartsWith as bs

def listContainsSeq (needle : List Char) : List Char → Bool
  | [] => needle.isEmpty
  | b :: bs => listStartsWith needle (b :: bs) || listContainsSeq needle bs

/-- The String.prototype.includes substring test. -/
def strIncludes (s needle : String) : Bool :=
  listContainsSeq needle.data s.data

/-- The guarded test typeof detail === string && detail.includes(needle)
from the interceptor: false for every non-string value, never throws. -/
def jsIsStringContaining (v : JSValue) (needle : String) : Bool :=
  match v with
  | .str s => strIncludes s needle
  | _ => false

/-- The unguarded call detail.includes(needle): succeeds on strings,
throws a TypeError on undefined and on numbers. -/
def jsIncludes : JSValue → String → Except String Bool
  | .str s, needle => .ok (strIncludes s needle)
  | .undef, _ => .error "TypeError: detail is undefined"
  | .num _, _ => .error "TypeError: detail.includes is not a function"

/-- The shape of an axios error as seen by the response interceptor:
responseDetail is the value of error.response.data.detail when the server
responded (none when there was no response), and hasRequest records
whether a request object is present. -/
structure AxiosError where
  responseDetail : Option JSValue
  hasRequest : Bool
deriving DecidableEq

/-- The response interceptor of the api module.  Returns the message it
passes to toast.error, or an error when the interceptor itself throws
while computing the message. -/
def interceptorMessage (e : AxiosError) : Except String JSValue :=
  match e.responseDetail with
  | some detail =>
    if jsIsStringContaining detail "Neo4j" then
      .ok (.str "Graph database connection error. Please try again later.")
    else
      match jsIncludes detail "MongoDB" with
      | .error msg => .error msg
      | .ok true => .ok (.str "Database connection error. Please try again later.")
      | .ok false => .ok (if jsTruthy detail then detail else .str "Server error")
  | none =>
    if e.hasRequest then .ok (.str "No response from server. Please check your connection.")
    else .ok (.str "An error occurred")

/-- Poll interval of the FileUpload status polling loop, in milliseconds. -/
def pollIntervalMs : Nat := 2000

/-- Cleanup timeout of the FileUpload status polling loop, in
milliseconds. -/
def cleanupTimeoutMs : Nat := 300000

/-- Maximal number of polls the interval can fire before the cleanup
timeout clears it. -/
def maxPolls : Nat := cleanupTimeoutMs / pollIntervalMs

/-- Terminal file statuses, exactly the ones on which startPolling clears
its interval after a successful poll. -/
def isTerminal : FileStatus → Bool
  | .COMPLETED => true
  | .FAILED => true
  | _ => false

/-- Outcome of one getFileStatus call inside the polling loop: a status
response, or a thrown error. -/
inductive PollOutcome
  | ok (s : FileStatus)
  | err
deriving DecidableEq

/-- Whether the polling loop clears its interval after this outcome: on a
terminal status, and on any polling error (the catch branch). -/
def stopsPolling : PollOutcome → Bool
  | .ok s => isTerminal s
  | .err => true

/-- The polls the loop actually executes, given the sequence of outcomes
successive getFileStatus calls would produce and a poll budget. -/
def runPolls : Nat → List PollOutcome → List PollOutcome
  | 0, _ => []
  | _ + 1, [] => []
  | n + 1, o :: rest => if stopsPolling o then [o] else o :: runPolls n rest

/-- The polls executed by startPolling before the interval is cleared by
a terminal status, an error, or the cleanup timeout. -/
def executedPolls (outcomes : List PollOutcome) : List PollOutcome :=
  runPolls maxPolls outcomes

/-- File extensions listed in the accept attribute of the upload input. -/
def acceptedExtensions : List String :=
  [".json", ".csv", ".xlsx", ".xml", ".pdf", ".txt"]

/-- The file extension corresponding to each declared format. -/
def formatExtension : FileFormat → String
  | .JSON => ".json"
  | .CSV => ".csv"
  | .EXCEL => ".xlsx"
  | .XML => ".xml"
  | .PDF => ".pdf"
  | .TXT => ".txt"

/-- Characters encodeURIComponent leaves unescaped besides ASCII letters
and digits. -/
def uriUnreservedMarks : List Char :=
  ['-', '_', '.', '!', '~', '*', Char.ofNat 39, '(', ')']

def isUnreservedURIChar (c : Char) : Bool :=
  c.isAlphanum || uriUnreservedMarks.contains c

def toHexDigit (n : Nat) : Char :=
  if n < 10 then Char.ofNat (48 + n) else Char.ofNat (55 + n)

/-- Percent-encoding of one byte, with uppercase hexadecimal digits. -/
def percentEncodeByte (b : Nat) : List Char :=
  [Char.ofNat 37, toHexDigit (b / 16), toHexDigit (b % 16)]

/-- UTF-8 byte sequence of one unicode scalar value. -/
def utf8Bytes (c : Char) : List Nat :=
  let n := c.toNat
  if n < 128 then [n]
  else if n < 2048 then [192 + n / 64, 128 + n % 64]
  else if n < 65536 then [224 + n / 4096, 128 + n / 64 % 64, 128 + n % 64]
  else [240 + n / 262144, 128 + n / 4096 % 64, 128 + n / 64 % 64, 128 + n % 64]

/-- The ECMAScript encodeURIComponent function (an external collaborator
the api module calls): unreserved characters pass through, every other
character is replaced by the percent-encoding of its UTF-8 bytes. -/
def encodeURIComponent (s : String) : String :=
  String.mk (s.data.flatMap fun c =>
    if isUnreservedURIChar c then [c] else (utf8Bytes c).flatMap percentEncodeByte)

/-- The request URL built by searchEntities in the api module. -/
def searchEntitiesURL (query : String) : String :=
  "/entities?query=" ++ encodeURIComponent query

/-- The backend request the EntitySearch component issues for a debounced
query: the query is enabled only when the query length exceeds 2, and an
issued request uses the searchEntities URL. -/
def entitySearchRequest (debouncedQuery : String) : Option String :=
  if 2 < debouncedQuery.length then some (searchEntitiesURL debouncedQuery) else none

/-- The denominator (stats?.totalCount || 1) used by every RiskDashboard
ratio: the totalCount when statistics are present with a nonzero
totalCount, and 1 otherwise. -/
def statDenom (stats : Option TransactionStatistics) : ℚ :=
  match stats with
  | some s => if s.totalCount = 0 then 1 else (s.totalCount : ℚ)
  | none => 1

/-- One risk-distribution percentage of the RiskDashboard:
(count || 0) / (totalCount || 1) * 100. -/
def bandPercent (stats : Option TransactionStatistics)
    (count : TransactionStatistics → Nat) : ℚ :=
  (match stats with | some s => ((count s : ℚ)) | none => 0) / statDenom stats * 100

def lowRiskPercent (stats : Option TransactionStatistics) : ℚ :=
  bandPercent stats fun s => s.lowRiskCount

def mediumRiskPercent (stats : Option TransactionStatistics) : ℚ :=
  bandPercent stats fun s => s.mediumRiskCount

def highRiskPercent (stats : Option TransactionStatistics) : ℚ :=
  bandPercent stats fun s => s.highRiskCount

/-- One sanctions-list match reported by the sanctions provider: the list
it was found on and the match-type annotation (exact or name-similarity). -/
structure SanctionsMatch where
  listName : String
  matchType : String
deriving DecidableEq

/-- Modelled from the spec: the backend OFAC sanctions enrichment service
is not part of the frontend sources.  Per the specification, a
sanctions-list match yields sanctioned = true with listEntries populated,
and every entry is annotated with its list name and a match-type
annotation (exact-identifier match versus name-similarity match), never
silently treated as exact. -/
def buildOFACData (hits : List SanctionsMatch) (now : Nat) : OFACData :=
  { sanctioned := !hits.isEmpty,
    listEntries := hits.map fun m =>
      { list_name := some m.listName, match_type := some m.matchType },
    lastChecked := now }

/-- A concrete entity value, used to instantiate universally quantified
statements. -/
def someEntity : Entity :=
  { id := "e1", name := "Acme Corp", type := .ORGANIZATION, role := .PAYER,
    enrichmentData :=
      { sec := none, ofac := none, media := none, regulatory := none, legal := none },
    riskScore := 0 }

/-- A concrete entity value the Entity type admits whose riskScore lies
outside the unit interval, on the 0-100 scale the entity-search bands
use. -/
def scoredEntity : Entity :=
  { id := "e2", name := "Globex", type := .ORGANIZATION, role := .RECEIVER,
    enrichmentData :=
      { sec := none, ofac := none, media := none, regulatory := none, legal := none },
    riskScore := 50 }

/-- What the onSuccess handler of the upload mutation does with the
FileMetadata value the uploadFile call resolves with: which file it
stores in the uploaded list, and which id it hands to startPolling. -/
structure UploadEffect where
  storedFile : FileMetadata
  pollFileId : String

/-- The onSuccess handler of the FileUpload mutation: the FileMetadata
returned by uploadFile is stored as-is and startPolling is invoked
immediately with its id field, whatever status the metadata carries --
the identifier is available before processing finishes. -/
def handleUploadSuccess (data : FileMetadata) : UploadEffect :=
  { storedFile := data, pollFileId := data.id }

/-- Statistics value with every field zero: what an empty database
reports. -/
def zeroStats : TransactionStatistics :=
  { totalCount := 0, highRiskCount := 0, mediumRiskCount := 0, lowRiskCount := 0,
    averageRiskScore := 0, totalAmount := 0, complianceRate := 0 }

/-- Statistics value whose totalCount is zero while highRiskCount is 5. -/
def skewedStats : TransactionStatistics :=
  { totalCount := 0, highRiskCount := 5, mediumRiskCount := 0, lowRiskCount := 0,
    averageRiskScore := 0, totalAmount := 0, complianceRate := 0 }

/-- A concrete consistent statistics value. -/
def sampleStats : TransactionStatistics :=
  { totalCount := 10, highRiskCount := 2, mediumRiskCount := 3, lowRiskCount := 5,
    averageRiskScore := 0, totalAmount := 0, complianceRate := 0 }

theorem greenNeGold :
    "bg-green-100 text-green-800" ≠ "bg-wf-gold bg-opacity-20 text-wf-black" := by
  decide

theorem greenNeRed :
    "bg-green-100 text-green-800" ≠ "bg-wf-red bg-opacity-20 text-wf-red" := by
  decide

/-- Claim C1: the claim states that the Transaction status type admits
exactly the specification states PENDING, EXTRACTING, ENRICHING, SCORING,
PERSISTING, COMPLETED, FAILED.  Counterexample: the type admits
PROCESSING, which is not a specification state, and admits no status
rendering as EXTRACTING. -/
theorem C1_counterexample :
    TransactionStatus.toString TransactionStatus.PROCESSING = "PROCESSING"
      ∧ specTransactionStates.contains "PROCESSING" = false
      ∧ (allTransactionStatuses.map TransactionStatus.toString).contains "EXTRACTING" = false := by
  refine ⟨rfl, by decide, by decide⟩

/-- Claim C1 amended: the Transaction status type admits exactly the four
values PENDING, PROCESSING, COMPLETED, FAILED. -/
theorem C1_amended :
    (∀ s : TransactionStatus, s ∈ allTransactionStatuses)
      ∧ allTransactionStatuses.map TransactionStatus.toString
          = ["PENDING", "PROCESSING", "COMPLETED", "FAILED"] := by
  refine ⟨?_, rfl⟩
  intro s
  cases s <;> simp [allTransactionStatuses]

/-- Claim C2: the claim states that every riskScore lies in the unit
interval and that the entity-search and dashboard band classifications
agree on every score in the unit interval.  Counterexample: the Entity
type admits a riskScore of 50, outside the unit interval, and the entity
search classifies that value into its medium band rather than rejecting
it; and at score 1/2 the entity search shows the low band while the
dashboard shows the medium band. -/
theorem C2_counterexample :
    scoredEntity.riskScore = 50
      ∧ ¬(scoredEntity.riskScore ≤ 1)
      ∧ entitySearchGetRiskColor scoredEntity.riskScore
          = "bg-wf-gold bg-opacity-20 text-wf-black"
      ∧ entitySearchGetRiskColor (1/2) = "bg-green-100 text-green-800"
      ∧ dashboardGetRiskColor (1/2) = "bg-wf-gold bg-opacity-20 text-wf-black"
      ∧ entitySearchGetRiskColor (1/2) ≠ dashboardGetRiskColor (1/2) := by
  have h0 : entitySearchGetRiskColor scoredEntity.riskScore
      = "bg-wf-gold bg-opacity-20 text-wf-black" := by
    show entitySearchGetRiskColor 50 = "bg-wf-gold bg-opacity-20 text-wf-black"
    unfold entitySearchGetRiskColor
    rw [if_neg (by norm_num), if_pos (by norm_num)]
  have h1 : entitySearchGetRiskColor (1/2) = "bg-green-100 text-green-800" := by
    unfold entitySearchGetRiskColor
    rw [if_pos (by norm_num)]
  have h2 : dashboardGetRiskColor (1/2) = "bg-wf-gold bg-opacity-20 text-wf-black" := by
    unfold dashboardGetRiskColor
    rw [if_neg (by norm_num), if_pos (by norm_num)]
  refine ⟨rfl, ?_, h0, h1, h2, ?_⟩
  · show ¬((50 : ℚ) ≤ 1)
    norm_num
  · rw [h1, h2]
    exact greenNeGold

/-- Claim C2 amended: the riskScore field is not constrained to the unit
interval -- the Entity type admits a score above 1 which the entity
search classifies into its medium band -- and the two views classify
with different thresholds (30 and 70 in the entity search, 0.3 and 0.7
in the dashboard): on the unit interval the entity search always shows
the low band, and the two views agree exactly on scores below 0.3. -/
theorem C2_amended :
    (∃ e : Entity, 1 < e.riskScore
        ∧ entitySearchGetRiskColor e.riskScore = "bg-wf-gold bg-opacity-20 text-wf-black")
      ∧ ∀ s : ℚ, 0 ≤ s → s ≤ 1 →
          entitySearchGetRiskColor s = "bg-green-100 text-green-800"
            ∧ (entitySearchGetRiskColor s = dashboardGetRiskColor s ↔ s < 3/10) := by
  constructor
  · refine ⟨scoredEntity, ?_, ?_⟩
    · show (1 : ℚ) < 50
      norm_num
    · show entitySearchGetRiskColor 50 = "bg-wf-gold bg-opacity-20 text-wf-black"
      unfold entitySearchGetRiskColor
      rw [if_neg (by norm_num), if_pos (by norm_num)]
  · intro s _h0 h1
    have hs : s < 30 := by linarith
    have hsearch : entitySearchGetRiskColor s = "bg-green-100 text-green-800" := by
      unfold entitySearchGetRiskColor
      rw [if_pos hs]
    refine ⟨hsearch, ?_⟩
    by_cases hA : s < 3/10
    · have hd : dashboardGetRiskColor s = "bg-green-100 text-green-800" := by
        unfold dashboardGetRiskColor
        rw [if_pos hA]
      rw [hsearch, hd]
      exact iff_of_true rfl hA
    · by_cases hB : s < 7/10
      · have hd : dashboardGetRiskColor s = "bg-wf-gold bg-opacity-20 text-wf-black" := by
          unfold dashboardGetRiskColor
          rw [if_neg hA, if_pos hB]
        rw [hsearch, hd]
        exact iff_of_false greenNeGold hA
      · have hd : dashboardGetRiskColor s = "bg-wf-red bg-opacity-20 text-wf-red" := by
          unfold dashboardGetRiskColor
          rw [if_neg hA, if_neg hB]
        rw [hsearch, hd]
        exact iff_of_false greenNeRed hA

theorem C2_amended_witness :
    (∃ e : Entity, 1 < e.riskScore
        ∧ entitySearchGetRiskColor e.riskScore = "bg-wf-gold bg-opacity-20 text-wf-black")
      ∧ entitySearchGetRiskColor 0 = "bg-green-100 text-green-800"
      ∧ (entitySearchGetRiskColor 0 = dashboardGetRiskColor 0 ↔ (0 : ℚ) < 3/10) :=
  ⟨C2_amended.1, (C2_amended.2 0 (by norm_num) (by norm_num)).1,
    (C2_amended.2 0 (by norm_num) (by norm_num)).2⟩

/-- Claim C3: the claim states that the role attribute of a resolved
entity is a set of roles, so one entity can keep both PAYER and RECEIVER.
Counterexample: no Entity value carries both roles, because the role
field holds a single Role. -/
theorem C3_counterexample :
    ¬ ∃ e : Entity, Role.PAYER ∈ entityRoles e ∧ Role.RECEIVER ∈ entityRoles e := by
  rintro ⟨e, hp, hr⟩
  simp only [entityRoles, List.mem_singleton] at hp hr
  rw [← hp] at hr
  exact absurd hr (by decide)

/-- Claim C3 amended: every Entity carries exactly one role, drawn from
PAYER, RECEIVER, INTERMEDIARY; the role attribute is a single value, not
a set. -/
theorem C3_amended (e : Entity) :
    (entityRoles e).length = 1
      ∧ entityRoles e = [e.role]
      ∧ ∀ r ∈ entityRoles e, r ∈ [Role.PAYER, Role.RECEIVER, Role.INTERMEDIARY] := by
  refine ⟨rfl, rfl, ?_⟩
  intro r hr
  cases r <;> simp

theorem C3_amended_witness :
    (entityRoles someEntity).length = 1
      ∧ entityRoles someEntity = [someEntity.role]
      ∧ Role.PAYER ∈ [Role.PAYER, Role.RECEIVER, Role.INTERMEDIARY] :=
  ⟨(C3_amended someEntity).1, (C3_amended someEntity).2.1,
    (C3_amended someEntity).2.2 Role.PAYER (by simp [entityRoles, someEntity])⟩

/-- Claim C4: the claim states that every resolved entity carries an
aliases field and an enrichment bundle whose providers are exactly
sanctions, regulatory, media, legal.  Counterexample: the Entity
interface has no aliases field, and the bundle contains the provider
field sec, which is outside the list named by the specification. -/
theorem C4_counterexample :
    entityFieldNames.contains "aliases" = false
      ∧ enrichmentProviderFields.contains "sec" = true
      ∧ specProviderFields.contains "sec" = false := by
  refine ⟨by decide, by decide, by decide⟩

/-- Claim C4 amended: every Entity carries id, name, type, role,
enrichmentData and riskScore (no aliases field), and the enrichment
bundle contains exactly one optional record per provider for the five
providers sec, ofac, media, regulatory, legal. -/
theorem C4_amended (b : EnrichmentData) :
    (bundleProviderRecords b).map Prod.fst = enrichmentProviderFields
      ∧ entityFieldNames.contains "aliases" = false
      ∧ entityFieldNames = ["id", "name", "type", "role", "enrichmentData", "riskScore"] := by
  refine ⟨rfl, by decide, rfl⟩

/-- Claim C5: whenever the OFAC enrichment record reports
sanctioned = true, its listEntries collection is non-empty and every
entry carries a list name and a match-type annotation, the fields the
sanctions warning reads unconditionally. -/
theorem C5_sanctioned_entries (hits : List SanctionsMatch) (now : Nat)
    (h : (buildOFACData hits now).sanctioned = true) :
    (buildOFACData hits now).listEntries ≠ []
      ∧ ∀ entry ∈ (buildOFACData hits now).listEntries,
          entry.list_name.isSome = true ∧ entry.match_type.isSome = true := by
  cases hits with
  | nil => simp [buildOFACData] at h
  | cons m ms =>
    constructor
    · simp [buildOFACData]
    · intro entry he
      simp only [buildOFACData, List.mem_map] at he
      obtain ⟨m, _, hm⟩ := he
      rw [← hm]
      exact ⟨rfl, rfl⟩

theorem C5_witness :
    (buildOFACData [{ listName := "SDN", matchType := "exact" }] 0).listEntries ≠ []
      ∧ ∀ entry ∈ (buildOFACData [{ listName := "SDN", matchType := "exact" }] 0).listEntries,
          entry.list_name.isSome = true ∧ entry.match_type.isSome = true :=
  C5_sanctioned_entries [{ listName := "SDN", matchType := "exact" }] 0 (by decide)

/-- Claim C6: the claim that the response interceptor handles every error
shape without itself throwing is right and the code is wrong: on a server
response whose detail field is absent, the unguarded call
detail.includes is evaluated on undefined and the interceptor throws a
TypeError instead of producing a message. -/
theorem C6_interceptor_throws :
    interceptorMessage { responseDetail := some JSValue.undef, hasRequest := true }
        = Except.error "TypeError: detail is undefined"
      ∧ interceptorMessage { responseDetail := some (JSValue.num 503), hasRequest := true }
        = Except.error "TypeError: detail.includes is not a function" := by
  exact ⟨rfl, rfl⟩

theorem runPolls_length_le (n : Nat) (outcomes : List PollOutcome) :
    (runPolls n outcomes).length ≤ n := by
  induction outcomes generalizing n with
  | nil => cases n <;> simp [runPolls]
  | cons o rest ih =>
    cases n with
    | zero => simp [runPolls]
    | succ m =>
      cases h : stopsPolling o with
      | true => simp [runPolls, h]
      | false =>
        have hm := ih m
        simp [runPolls, h]
        omega

theorem runPolls_dropLast_not_stop (n : Nat) (outcomes : List PollOutcome) :
    ((runPolls n outcomes).dropLast).all (fun o => !stopsPolling o) = true := by
  induction outcomes generalizing n with
  | nil => cases n <;> simp [runPolls]
  | cons o rest ih =>
    cases n with
    | zero => simp [runPolls]
    | succ m =>
      cases h : stopsPolling o with
      | true => simp [runPolls, h]
      | false =>
        rw [show runPolls (m + 1) (o :: rest) = o :: runPolls m rest from by
          simp [runPolls, h]]
        cases hr : runPolls m rest with
        | nil => simp
        | cons p ps =>
          have h2 := ih m
          rw [hr] at h2
          rw [List.dropLast_cons₂, List.all_cons, h2]
          simp [h]

/-- Claim C7: the claim states that polling stops exactly when a returned
status is terminal or after the 5-minute cleanup timeout.
Counterexample: when the first getFileStatus call throws, the catch
branch clears the interval, so polling stops after one poll although no
terminal status was observed and neither the outcome budget nor the
timeout was exhausted. -/
theorem C7_counterexample :
    executedPolls [PollOutcome.err, PollOutcome.ok FileStatus.PENDING] = [PollOutcome.err]
      ∧ (∀ s : FileStatus, PollOutcome.ok s ≠ PollOutcome.err)
      ∧ isTerminal FileStatus.PENDING = false
      ∧ 1 < maxPolls := by
  refine ⟨rfl, ?_, rfl, by decide⟩
  intro s h
  exact PollOutcome.noConfusion h

/-- Claim C7 amended: submitting a file via uploadFile returns
FileMetadata containing the FileJob identifier immediately -- the upload
onSuccess handler stores the returned metadata as-is and starts polling
on its id field whatever status the metadata carries, with no wait for
processing; polling stops when a returned status is terminal (COMPLETED
or FAILED), when a status poll throws, or after the 5-minute cleanup
timeout (at most 150 polls of one every 2 seconds); it never continues
after a terminal status is observed: every executed poll before the last
one observed a non-terminal status. -/
theorem C7_amended (data : FileMetadata) (outcomes : List PollOutcome) :
    (handleUploadSuccess data).pollFileId = data.id
      ∧ (handleUploadSuccess data).storedFile = data
      ∧ (executedPolls outcomes).length ≤ maxPolls
      ∧ maxPolls = 150
      ∧ ((executedPolls outcomes).dropLast).all (fun o => !stopsPolling o) = true :=
  ⟨rfl, rfl, runPolls_length_le maxPolls outcomes, by decide,
    runPolls_dropLast_not_stop maxPolls outcomes⟩

/-- Claim C8: the declared file formats are exactly JSON, CSV, EXCEL,
XML, PDF, TXT, and the upload control accepts exactly the corresponding
file extensions: an extension is accepted precisely when it is the
extension of one of the six declared formats. -/
theorem C8_file_formats :
    (∀ f : FileFormat, f ∈ allFileFormats)
      ∧ allFileFormats.map FileFormat.toString = ["JSON", "CSV", "EXCEL", "XML", "PDF", "TXT"]
      ∧ acceptedExtensions = allFileFormats.map formatExtension
      ∧ ∀ ext : String, ext ∈ acceptedExtensions ↔ ∃ f : FileFormat, formatExtension f = ext := by
  refine ⟨?_, rfl, rfl, ?_⟩
  · intro f
    cases f <;> simp [allFileFormats]
  · intro ext
    constructor
    · intro h
      simp only [acceptedExtensions, List.mem_cons, List.not_mem_nil, or_false] at h
      rcases h with rfl | rfl | rfl | rfl | rfl | rfl
      exacts [⟨.JSON, rfl⟩, ⟨.CSV, rfl⟩, ⟨.EXCEL, rfl⟩, ⟨.XML, rfl⟩, ⟨.PDF, rfl⟩, ⟨.TXT, rfl⟩]
    · rintro ⟨f, rfl⟩
      cases f <;> simp [acceptedExtensions, formatExtension]

theorem C8_file_formats_witness :
    ".xlsx" ∈ acceptedExtensions ↔ ∃ f : FileFormat, formatExtension f = ".xlsx" :=
  C8_file_formats.2.2.2 ".xlsx"

/-- Claim C9: the entity search issues a backend request only when the
debounced query is longer than 2 characters, and an issued request puts
the URI-encoded query into the request URL. -/
theorem C9_search_gate (q : String) :
    (q.length ≤ 2 → entitySearchRequest q = none)
      ∧ (2 < q.length →
          entitySearchRequest q = some ("/entities?query=" ++ encodeURIComponent q)) := by
  constructor
  · intro h
    unfold entitySearchRequest
    rw [if_neg (by omega)]
  · intro h
    unfold entitySearchRequest
    rw [if_pos h]
    rfl

theorem C9_search_gate_witness :
    entitySearchRequest "ab" = none
      ∧ entitySearchRequest "abc" = some ("/entities?query=" ++ encodeURIComponent "abc") :=
  ⟨(C9_search_gate "ab").1 (by decide), (C9_search_gate "abc").2 (by decide)⟩

/-- Claim C10: the claim states that the three displayed band percentages
sum to 100 exactly when the three band counts sum to totalCount, and that
every statistics value with totalCount zero yields ratio 0.
Counterexample: for the all-zero statistics value the counts sum to
totalCount yet the percentages sum to 0, and for a statistics value with
totalCount zero and highRiskCount 5 the high-risk ratio is 500 percent,
not 0. -/
theorem C10_counterexample :
    zeroStats.lowRiskCount + zeroStats.mediumRiskCount + zeroStats.highRiskCount
        = zeroStats.totalCount
      ∧ lowRiskPercent (some zeroStats) + mediumRiskPercent (some zeroStats)
          + highRiskPercent (some zeroStats) = 0
      ∧ (0 : ℚ) ≠ 100
      ∧ skewedStats.totalCount = 0
      ∧ highRiskPercent (some skewedStats) = 500 := by
  refine ⟨rfl, ?_, by norm_num, rfl, ?_⟩
  · simp [lowRiskPercent, mediumRiskPercent, highRiskPercent, bandPercent, statDenom, zeroStats]
  · simp [highRiskPercent, bandPercent, statDenom, skewedStats]
    norm_num

/-- Claim C10 amended: every dashboard ratio divides by the denominator
(totalCount || 1), which is at least 1, so no ratio is ever NaN or
Infinity; when statistics are absent all three band percentages are 0;
when totalCount is 0 each band percentage is 100 times the raw band
count; and when totalCount is nonzero the three band percentages sum to
100 exactly when the three band counts sum to totalCount. -/
theorem C10_amended (stats : Option TransactionStatistics) :
    1 ≤ statDenom stats
      ∧ (stats = none →
          lowRiskPercent stats = 0 ∧ mediumRiskPercent stats = 0 ∧ highRiskPercent stats = 0)
      ∧ (∀ s : TransactionStatistics, stats = some s → s.totalCount = 0 →
          lowRiskPercent stats = 100 * s.lowRiskCount
            ∧ mediumRiskPercent stats = 100 * s.mediumRiskCount
            ∧ highRiskPercent stats = 100 * s.highRiskCount)
      ∧ ∀ s : TransactionStatistics, stats = some s → s.totalCount ≠ 0 →
          (lowRiskPercent stats + mediumRiskPercent stats + highRiskPercent stats = 100
            ↔ s.lowRiskCount + s.mediumRiskCount + s.highRiskCount = s.totalCount) := by
  refine ⟨?_, ?_, ?_, ?_⟩
  · cases stats with
    | none => simp [statDenom]
    | some s =>
      by_cases h : s.totalCount = 0
      · simp [statDenom, h]
      · simp only [statDenom, h, if_false]
        exact_mod_cast Nat.one_le_iff_ne_zero.mpr h
  · intro h
    subst h
    simp [lowRiskPercent, mediumRiskPercent, highRiskPercent, bandPercent]
  · intro s hs h0
    subst hs
    have hd : statDenom (some s) = 1 := by
      simp [statDenom, h0]
    simp only [lowRiskPercent, mediumRiskPercent, highRiskPercent, bandPercent, hd, div_one]
    refine ⟨by ring, by ring, by ring⟩
  · intro s hs ht
    subst hs
    have htq : (s.totalCount : ℚ) ≠ 0 := Nat.cast_ne_zero.mpr ht
    have hd : statDenom (some s) = (s.totalCount : ℚ) := by
      simp [statDenom, ht]
    simp only [lowRiskPercent, mediumRiskPercent, highRiskPercent, bandPercent, hd]
    rw [div_mul_eq_mul_div, div_mul_eq_mul_div, div_mul_eq_mul_div,
      div_add_div_same, div_add_div_same, div_eq_iff htq]
    constructor
    · intro h
      have hq : (s.lowRiskCount : ℚ) + s.mediumRiskCount + s.highRiskCount = s.totalCount := by
        linarith
      exact_mod_cast hq
    · intro h
      have hq : ((s.lowRiskCount + s.mediumRiskCount + s.highRiskCount : Nat) : ℚ)
          = (s.totalCount : ℚ) := by
        exact_mod_cast congrArg (fun n : Nat => (n : ℚ)) h
      push_cast at hq
      linarith

theorem C10_amended_witness :
    highRiskPercent (some skewedStats) = 100 * skewedStats.highRiskCount
      ∧ (lowRiskPercent (some sampleStats) + mediumRiskPercent (some sampleStats)
          + highRiskPercent (some sampleStats) = 100
        ↔ sampleStats.lowRiskCount + sampleStats.mediumRiskCount + sampleStats.highRiskCount
          = sampleStats.totalCount) :=
  ⟨((C10_amended (some skewedStats)).2.2.1 skewedStats rfl rfl).2.2,
    (C10_amended (some sampleStats)).2.2.2 sampleStats rfl (by decide)⟩

end Regulaize

